import Mathlib

/-!
Verification of the pending-transaction pool and block-assembly engine of the
`rusteth` node (`src/app/node`): the EIP-1559 base-fee calculator, the gas-limit
calculator, the greedy transaction selector, the block builder
(`service/build_block_impl.rs`) and the in-memory transaction pool
(`infrastructure/transaction_repo_impl.rs`).

Modelling conventions:
- `u64` and `U256` values are embedded as `Nat`.  The `ethereum_types::U256`
  arithmetic operators panic on overflow and on division by zero; functions that
  can hit such a panic are embedded as `Option`-valued, with `none` standing for
  the panic.  `u64` arithmetic in the pool and selector is embedded directly on
  `Nat`; theorems that depend on the `u64` range carry explicit `< 2 ^ 64`
  hypotheses.
- `saturating_sub` on unsigned integers is `Nat` subtraction.
- A transaction's keccak256 content hash (`DynamicFeeTx::hash`) is modelled
  injectively by the transaction record itself (`txHash := id`): two
  transactions have equal hashes exactly when all twelve hashed fields agree.
- Rust `HashMap` / `BTreeMap` contents are modelled as association lists;
  `insert` replaces any previous binding of the key, `remove` deletes it.
-/

namespace RustEth

/-- EIP-1559 dynamic-fee transaction, `domain/entity_types.rs` `DynamicFeeTx`:
all twelve fields, with addresses, hashes and 256-bit words embedded as `Nat`. -/
structure DynamicFeeTx where
  chain_id : Nat
  nonce : Nat
  max_priority_fee_per_gas : Nat
  max_fee_per_gas : Nat
  gas_limit : Nat
  «to» : Option Nat
  value : Nat
  data : List Nat
  access_list : List (Nat × List Nat)
  v : Nat
  r : Nat
  s : Nat
deriving DecidableEq

/-- Upper bound of the `U256` type: its arithmetic panics at this bound. -/
def U256_LIMIT : Nat := 2 ^ 256

/-- BaseFeeCalculator::BASE_FEE_MAX_CHANGE_DENOMINATOR. -/
def BASE_FEE_MAX_CHANGE_DENOMINATOR : Nat := 8

/-- BaseFeeCalculator::ELASTICITY_MULTIPLIER. -/
def ELASTICITY_MULTIPLIER : Nat := 2

/-- BaseFeeCalculator::calculate_base_fee (`service/build_block_impl.rs`).
Returns `none` exactly where the Rust code panics: when the `U256`
multiplication or addition overflows `2 ^ 256`, or when `gas_target = 0` and
the congestion branch divides by zero. -/
def calculate_base_fee (parent_gas_used parent_gas_limit : Nat)
    (parent_base_fee : Nat) : Option Nat :=
  let gas_target := parent_gas_limit / ELASTICITY_MULTIPLIER
  if parent_gas_used = gas_target then
    some parent_base_fee
  else if gas_target < parent_gas_used then
    let gas_used_delta := parent_gas_used - gas_target
    if U256_LIMIT ≤ parent_base_fee * gas_used_delta then none
    else if gas_target = 0 then none
    else
      let base_fee_delta :=
        max (parent_base_fee * gas_used_delta / gas_target /
          BASE_FEE_MAX_CHANGE_DENOMINATOR) 1
      if U256_LIMIT ≤ parent_base_fee + base_fee_delta then none
      else some (parent_base_fee + base_fee_delta)
  else
    let gas_used_delta := gas_target - parent_gas_used
    if U256_LIMIT ≤ parent_base_fee * gas_used_delta then none
    else
      some (parent_base_fee -
        parent_base_fee * gas_used_delta / gas_target /
          BASE_FEE_MAX_CHANGE_DENOMINATOR)

/-- GasLimitCalculator::GAS_LIMIT_BOUND_DIVISOR. -/
def GAS_LIMIT_BOUND_DIVISOR : Nat := 1024

/-- GasLimitCalculator::MIN_GAS_LIMIT. -/
def MIN_GAS_LIMIT : Nat := 5000

/-- GasLimitCalculator::calculate_gas_limit (`service/build_block_impl.rs`).
The two booleans abstract the two `f64` usage-ratio tests of the source
(`usage_ratio > 0.9` and `usage_ratio < 0.5`, where
`usage_ratio = parent_gas_used as f64 / parent_gas_limit as f64`); floating
point is not modelled, and every theorem below quantifies over both flags. -/
def calculate_gas_limit (parent_gas_used parent_gas_limit : Nat)
    (desired_limit : Option Nat)
    (usage_above_ninety usage_below_half : Bool) : Nat :=
  let delta := parent_gas_limit / GAS_LIMIT_BOUND_DIVISOR
  let limit :=
    match desired_limit with
    | some desired =>
      if parent_gas_limit < desired then min (parent_gas_limit + delta) desired
      else if desired < parent_gas_limit then
        max (parent_gas_limit - delta) desired
      else parent_gas_limit
    | none =>
      if usage_above_ninety then parent_gas_limit + delta
      else if usage_below_half then parent_gas_limit - delta
      else parent_gas_limit
  max limit MIN_GAS_LIMIT

/-- Block assembly / validation errors, `domain/block_types.rs`
`BlockValidationError`.  Payloads are embedded as `Nat`; the string payloads of
the source (`TransactionExecutionFailed`, `Other`) are dropped. -/
inductive BlockValidationError where
  | InvalidDifficulty : Nat → Nat → BlockValidationError
  | InvalidNonce : Nat → Nat → BlockValidationError
  | InvalidOmmersHash : BlockValidationError
  | ExtraDataTooLarge : Nat → Nat → BlockValidationError
  | GasLimitExceeded : Nat → Nat → BlockValidationError
  | GasLimitAdjustmentTooLarge : Nat → Nat → BlockValidationError
  | InvalidBaseFee : Nat → Nat → BlockValidationError
  | TransactionExecutionFailed : BlockValidationError
  | InvalidStateRoot : BlockValidationError
  | Other : BlockValidationError
deriving DecidableEq

/-- GasLimitCalculator::validate_gas_limit (`service/build_block_impl.rs`):
rejects a candidate below `MIN_GAS_LIMIT` or outside
`[parent - parent/1024, parent + parent/1024]`. -/
def validate_gas_limit (parent_gas_limit current_gas_limit : Nat) :
    Except BlockValidationError Unit :=
  let delta := parent_gas_limit / GAS_LIMIT_BOUND_DIVISOR
  let max_limit := parent_gas_limit + delta
  let min_limit := parent_gas_limit - delta
  if current_gas_limit < MIN_GAS_LIMIT then
    Except.error
      (BlockValidationError.GasLimitAdjustmentTooLarge parent_gas_limit
        current_gas_limit)
  else if max_limit < current_gas_limit ∨ current_gas_limit < min_limit then
    Except.error
      (BlockValidationError.GasLimitAdjustmentTooLarge parent_gas_limit
        current_gas_limit)
  else
    Except.ok ()

/-- TransactionSelector::effective_priority_fee:
`min(max_priority_fee_per_gas, max_fee_per_gas saturating_sub base_fee)`,
written exactly as the source's comparison. -/
def effective_priority_fee (tx : DynamicFeeTx) (base_fee : Nat) : Nat :=
  let max_priority := tx.max_priority_fee_per_gas
  let max_fee_minus_base := tx.max_fee_per_gas - base_fee
  if max_priority < max_fee_minus_base then max_priority else max_fee_minus_base

/-- Stable insertion of one element: `x` goes in front of the first element it
may precede.  Used to model Rust's stable `sort_by`. -/
def stable_insert (le : DynamicFeeTx → DynamicFeeTx → Bool) (x : DynamicFeeTx) :
    List DynamicFeeTx → List DynamicFeeTx
  | [] => [x]
  | y :: l => if le x y then x :: y :: l else y :: stable_insert le x l

/-- Model of `Vec::sort_by` (a stable sort).  A stable sort's output is a
function of the input list and the comparator alone — every stable sorting
algorithm produces the same list — so this stable insertion sort is
extensionally the library merge sort the Rust code calls. -/
def sort_by (le : DynamicFeeTx → DynamicFeeTx → Bool) :
    List DynamicFeeTx → List DynamicFeeTx
  | [] => []
  | x :: l => stable_insert le x (sort_by le l)

/-- Comparator of TransactionSelector::select_transactions, Step 2:
`b_priority.cmp(&a_priority)` sorts by effective priority fee, descending. -/
def select_le (base_fee : Nat) (a b : DynamicFeeTx) : Bool :=
  decide (effective_priority_fee b base_fee ≤ effective_priority_fee a base_fee)

/-- Step 3 of TransactionSelector::select_transactions: the greedy packing loop
over the sorted list, carrying the accumulated gas.  A transaction is taken
when it still fits under `gas_limit`; after each iteration the loop stops once
the accumulated gas reaches 95% of `gas_limit`. -/
def greedy_pack (gas_limit : Nat) :
    List DynamicFeeTx → Nat → List DynamicFeeTx
  | [], _ => []
  | tx :: rest, total_gas =>
    if total_gas + tx.gas_limit ≤ gas_limit then
      if gas_limit * 95 / 100 ≤ total_gas + tx.gas_limit then [tx]
      else tx :: greedy_pack gas_limit rest (total_gas + tx.gas_limit)
    else
      if gas_limit * 95 / 100 ≤ total_gas then []
      else greedy_pack gas_limit rest total_gas

/-- TransactionSelector::select_transactions (`service/build_block_impl.rs`):
filter out transactions that cannot pay `base_fee`, sort by effective priority
fee descending (stable), then greedily pack under `gas_limit`. -/
def select_transactions (candidates : List DynamicFeeTx) (gas_limit : Nat)
    (base_fee : Nat) : List DynamicFeeTx :=
  let valid_txs := candidates.filter
    (fun tx => decide (base_fee ≤ tx.max_fee_per_gas))
  let sorted_txs := sort_by (select_le base_fee) valid_txs
  greedy_pack gas_limit sorted_txs 0

/-- Total declared gas of a list of transactions. -/
def sumGas (l : List DynamicFeeTx) : Nat :=
  (l.map (fun tx => tx.gas_limit)).sum

/-- Addresses are embedded as `Nat`. -/
abbrev Address := Nat

/-- A transaction hash.  `DynamicFeeTx::hash` is
`keccak256(0x02 || rlp(all twelve fields))`; keccak256 is collision-free on
the inputs of interest, so the hash is modelled injectively by the hashed
record itself. -/
abbrev TxHash := DynamicFeeTx

/-- DynamicFeeTx::hash under the injective modelling above. -/
def txHash (tx : DynamicFeeTx) : TxHash := tx

/-- Association-list lookup, modelling `HashMap::get` / `BTreeMap::get`. -/
def lookupA {α β : Type} [DecidableEq α] : List (α × β) → α → Option β
  | [], _ => none
  | (k, v) :: rest, key => if k = key then some v else lookupA rest key

/-- Association-list deletion, modelling `HashMap::remove` /
`BTreeMap::remove` (maps never hold a key twice, so filtering every binding of
the key removes exactly the one binding). -/
def eraseA {α β : Type} [DecidableEq α] (l : List (α × β)) (key : α) :
    List (α × β) :=
  l.filter (fun p => decide (p.1 ≠ key))

/-- Association-list insertion, modelling `HashMap::insert` /
`BTreeMap::insert`: any previous binding of the key is replaced. -/
def insertA {α β : Type} [DecidableEq α] (l : List (α × β)) (key : α) (v : β) :
    List (α × β) :=
  (key, v) :: eraseA l key

/-- TxPoolConfig (`infrastructure/transaction_repo_impl.rs`). -/
structure TxPoolConfig where
  max_pending : Nat
  max_queued : Nat
  price_bump_percent : Nat
deriving DecidableEq

/-- TxPoolConfig::default(): 4096 pending, 1024 queued, 110% price bump. -/
def defaultConfig : TxPoolConfig :=
  { max_pending := 4096, max_queued := 1024, price_bump_percent := 110 }

/-- TxPoolState: the authoritative `transactions` table
`hash -> (tx, sender)` plus the per-sender `pending` and `queued` nonce maps
`sender -> (nonce -> hash)`. -/
structure TxPoolState where
  transactions : List (TxHash × (DynamicFeeTx × Address))
  pending : List (Address × List (Nat × TxHash))
  queued : List (Address × List (Nat × TxHash))
deriving DecidableEq

/-- TxPoolState::new(). -/
def emptyPool : TxPoolState :=
  { transactions := [], pending := [], queued := [] }

/-- Transaction-pool errors, `service/repo/transaction_repo.rs` `TxPoolError`.
The two `String` fields of `ReplacementUnderpriced` are `format!`-ed fee
values; they are embedded as the fee values themselves. -/
inductive TxPoolError where
  | AlreadyExists : TxHash → TxPoolError
  | PoolFull : Nat → Nat → TxPoolError
  | NonceGap : Nat → Nat → TxPoolError
  | ReplacementUnderpriced : Nat → Nat → TxPoolError
  | Other : TxPoolError
deriving DecidableEq

/-- TxPoolImpl::needs_price_bump: the incoming fee must reach
`old_price * price_bump_percent / 100` (integer arithmetic). -/
def needs_price_bump (cfg : TxPoolConfig) (old_tx new_tx : DynamicFeeTx) :
    Bool :=
  let old_price := old_tx.max_fee_per_gas
  let required_price := old_price * cfg.price_bump_percent / 100
  decide (required_price ≤ new_tx.max_fee_per_gas)

/-- TxPoolImpl::add (`infrastructure/transaction_repo_impl.rs`): look the
incoming transaction's hash up in the `transactions` table and, if present,
demand the price bump; then check capacity; then insert into the table and
into the sender's pending nonce map (replacing any hash already at that
nonce). -/
def addTx (cfg : TxPoolConfig) (s : TxPoolState) (tx : DynamicFeeTx)
    (sender : Address) : Except TxPoolError (TxHash × TxPoolState) :=
  let tx_hash := txHash tx
  let nonce := tx.nonce
  let priceCheck : Except TxPoolError Unit :=
    match lookupA s.transactions tx_hash with
    | some (existing_tx, _) =>
      if needs_price_bump cfg existing_tx tx then Except.ok ()
      else
        Except.error
          (TxPoolError.ReplacementUnderpriced existing_tx.max_fee_per_gas
            tx.max_fee_per_gas)
    | none => Except.ok ()
  match priceCheck with
  | Except.error e => Except.error e
  | Except.ok _ =>
    if cfg.max_pending + cfg.max_queued ≤ s.transactions.length then
      Except.error
        (TxPoolError.PoolFull s.transactions.length
          (cfg.max_pending + cfg.max_queued))
    else
      let transactions := insertA s.transactions tx_hash (tx, sender)
      let sender_pending := (lookupA s.pending sender).getD []
      let pending :=
        insertA s.pending sender (insertA sender_pending nonce tx_hash)
      Except.ok
        (tx_hash,
          { transactions := transactions, pending := pending,
            queued := s.queued })

/-- One sender map update of TxPoolImpl::remove: delete the nonce slot and
drop the sender's entry when its map becomes empty. -/
def removeSlot (m : List (Address × List (Nat × TxHash))) (sender : Address)
    (nonce : Nat) : List (Address × List (Nat × TxHash)) :=
  match lookupA m sender with
  | none => m
  | some inner =>
    let inner2 := eraseA inner nonce
    if inner2.isEmpty then eraseA m sender
    else insertA m sender inner2

/-- TxPoolImpl::remove: pop the entry from the `transactions` table and, when
it was present, delete its nonce slot from the sender's pending and queued
maps.  Always returns `ok`. -/
def removeTx (s : TxPoolState) (h : TxHash) : Except TxPoolError TxPoolState :=
  match lookupA s.transactions h with
  | none => Except.ok s
  | some (tx, sender) =>
    let nonce := tx.nonce
    let transactions := eraseA s.transactions h
    let pending := removeSlot s.pending sender nonce
    let queued := removeSlot s.queued sender nonce
    Except.ok
      { transactions := transactions, pending := pending, queued := queued }

/-- Number of nonce slots of one sender map family holding hash `h`. -/
def slotCount (m : List (Address × List (Nat × TxHash))) (h : TxHash) : Nat :=
  (m.map (fun p => (p.2.filter (fun q => decide (q.2 = h))).length)).sum

/-- Number of sender-queue slots (pending and queued) pointing at hash `h`. -/
def pointerCount (s : TxPoolState) (h : TxHash) : Nat :=
  slotCount s.pending h + slotCount s.queued h

/-- The state after `add`, keeping the old state when `add` rejects. -/
def addState (cfg : TxPoolConfig) (s : TxPoolState) (tx : DynamicFeeTx)
    (sender : Address) : TxPoolState :=
  match addTx cfg s tx sender with
  | Except.ok (_, s2) => s2
  | Except.error _ => s

/-- EIP-4895 withdrawal, `domain/block_types.rs` `Withdrawal`. -/
structure Withdrawal where
  index : Nat
  validator_index : Nat
  address : Address
  amount : Nat
deriving DecidableEq

/-- Block header, `domain/block_types.rs` `BlockHeader`.  `H256` and `Bloom`
values are embedded as `Nat`, `extra_data` as a byte list. -/
structure BlockHeader where
  parent_hash : Nat
  ommers_hash : Nat
  fee_recipient : Address
  state_root : Nat
  transactions_root : Nat
  receipts_root : Nat
  logs_bloom : Nat
  difficulty : Nat
  number : Nat
  gas_limit : Nat
  gas_used : Nat
  timestamp : Nat
  extra_data : List Nat
  mix_hash : Nat
  nonce : Nat
  base_fee_per_gas : Option Nat
  withdrawals_root : Option Nat
  blob_gas_used : Option Nat
  excess_blob_gas : Option Nat
  parent_beacon_block_root : Option Nat
deriving DecidableEq

/-- BlockHeader::empty_ommers_hash(): `keccak256(rlp([]))`, the canonical
PoS empty-ommers hash constant of the source. -/
def empty_ommers_hash : Nat :=
  0x1dcc4de8dec75d7aab85b567b6ccd41ad312451b948a7413f0a142fd40d49347

/-- Full block, `domain/block_types.rs` `Block`. -/
structure Block where
  header : BlockHeader
  transactions : List DynamicFeeTx
  withdrawals : List Withdrawal
deriving DecidableEq

/-- Build environment, `domain/block_types.rs` `BuildEnvironment`. -/
structure BuildEnvironment where
  parent_hash : Nat
  parent_number : Nat
  parent_gas_used : Nat
  parent_gas_limit : Nat
  parent_base_fee : Nat
  timestamp : Nat
  fee_recipient : Address
  prev_randao : Nat
  withdrawals : List Withdrawal
  parent_beacon_block_root : Option Nat
deriving DecidableEq

/-- The execution loop of
BuildBlockService::select_and_execute_transactions: revm integration is a
placeholder, so each transaction's `gas_used` is its declared `gas_limit`; the
loop re-checks the block budget and stops at the first transaction that would
exceed it.  Returns the executed transactions and the total gas used.  The
receipts it also builds feed only the zero-placeholder roots and bloom, so
they are not modelled. -/
def execute_loop (gas_limit : Nat) :
    List DynamicFeeTx → Nat → List DynamicFeeTx × Nat
  | [], total_gas_used => ([], total_gas_used)
  | tx :: rest, total_gas_used =>
    let gas_used := tx.gas_limit
    if gas_limit < total_gas_used + gas_used then ([], total_gas_used)
    else
      let r := execute_loop gas_limit rest (total_gas_used + gas_used)
      (tx :: r.1, r.2)

/-- BuildBlockService::build_header (`service/build_block_impl.rs`): the fixed
PoS fields, `number = parent_number + 1`, the computed gas/fee fields and the
pass-through context fields. -/
def build_header (env : BuildEnvironment) (base_fee : Nat)
    (gas_limit gas_used : Nat)
    (transactions_root receipts_root state_root logs_bloom : Nat)
    (withdrawals_root : Option Nat) : BlockHeader :=
  { parent_hash := env.parent_hash
    ommers_hash := empty_ommers_hash
    fee_recipient := env.fee_recipient
    state_root := state_root
    transactions_root := transactions_root
    receipts_root := receipts_root
    logs_bloom := logs_bloom
    difficulty := 0
    number := env.parent_number + 1
    gas_limit := gas_limit
    gas_used := gas_used
    timestamp := env.timestamp
    extra_data := []
    mix_hash := env.prev_randao
    nonce := 0
    base_fee_per_gas := some base_fee
    withdrawals_root := withdrawals_root
    blob_gas_used := none
    excess_blob_gas := none
    parent_beacon_block_root := env.parent_beacon_block_root }

/-- BuildBlockService::build_block (`service/build_block_impl.rs`).
`candidates` stands for the result of the pool's `get_pending(1000,
Some(base_fee))` call (which never returns an error in `TxPoolImpl`);
`desired_gas_limit` is the service's configuration field; the two booleans
abstract the `f64` usage-ratio tests of `calculate_gas_limit`.  The Merkle
roots and the logs bloom are the source's zero placeholders; the withdrawals
root is `None` for an empty withdrawal list and the zero placeholder
otherwise.  The outer `Option` is `none` where the base-fee calculator
panics. -/
def build_block (env : BuildEnvironment) (candidates : List DynamicFeeTx)
    (desired_gas_limit : Option Nat) (usage_above_ninety usage_below_half : Bool) :
    Option (Except BlockValidationError Block) :=
  match calculate_base_fee env.parent_gas_used env.parent_gas_limit
      env.parent_base_fee with
  | none => none
  | some base_fee =>
    let gas_limit := calculate_gas_limit env.parent_gas_used
      env.parent_gas_limit desired_gas_limit usage_above_ninety usage_below_half
    match validate_gas_limit env.parent_gas_limit gas_limit with
    | Except.error e => some (Except.error e)
    | Except.ok _ =>
      let selected_txs := select_transactions candidates gas_limit base_fee
      let executed := execute_loop gas_limit selected_txs 0
      let withdrawals_root : Option Nat :=
        if env.withdrawals.isEmpty then none else some 0
      let header := build_header env base_fee gas_limit executed.2 0 0 0 0
        withdrawals_root
      some (Except.ok
        { header := header, transactions := executed.1,
          withdrawals := env.withdrawals })

/-- Concrete transaction of the replacement scenario (§8 scenario C):
nonce 0, `max_fee_per_gas = 50e9`, shaped like the repository's
`create_test_tx(0, 50_000_000_000)`. -/
def tx50 : DynamicFeeTx :=
  { chain_id := 1, nonce := 0, max_priority_fee_per_gas := 1000000000,
    max_fee_per_gas := 50000000000, gas_limit := 21000, «to» := some 0x1234,
    value := 1000000000000000000, data := [], access_list := [], v := 0,
    r := 1, s := 1 }

/-- The same transaction resubmitted at the same sender and nonce with
`max_fee_per_gas = 54e9` — below the 110% bump threshold of 55e9. -/
def tx54 : DynamicFeeTx :=
  { tx50 with max_fee_per_gas := 54000000000 }

/-- Pool state holding exactly `tx50` from sender 1. -/
def poolWith50 : TxPoolState :=
  addState defaultConfig emptyPool tx50 1

/-- Pool state after the 54e9 resubmission at the same sender and nonce. -/
def poolWith50And54 : TxPoolState :=
  addState defaultConfig poolWith50 tx54 1

/-- Concrete build environment: parent block 0 with gas 15e6 of 30e6 used and
base fee 1e9 (the repository's `test_build_empty_block` environment). -/
def envEx : BuildEnvironment :=
  { parent_hash := 0, parent_number := 0, parent_gas_used := 15000000,
    parent_gas_limit := 30000000, parent_base_fee := 1000000000,
    timestamp := 1234567890, fee_recipient := 0, prev_randao := 0,
    withdrawals := [], parent_beacon_block_root := none }

/-- The block assembled in `envEx` from an empty pool with a desired gas limit
equal to the parent's. -/
def blockEx : Block :=
  match build_block envEx [] (some 30000000) false false with
  | some (Except.ok b) => b
  | _ =>
    { header := build_header envEx 0 0 0 0 0 0 0 none, transactions := [],
      withdrawals := [] }

/-- Helper: in the congestion branch, whatever value the calculator returns is
the parent fee plus the truncated multiply-before-divide increase, floored at
one. -/
theorem calculate_base_fee_gt_target (used limit fee r : Nat)
    (hgt : limit / 2 < used)
    (h : calculate_base_fee used limit fee = some r) :
    r = fee + max 1 (fee * (used - limit / 2) / (limit / 2) / 8) := by
  unfold calculate_base_fee at h
  simp only [ELASTICITY_MULTIPLIER, U256_LIMIT,
    BASE_FEE_MAX_CHANGE_DENOMINATOR] at h
  rw [if_neg (by omega), if_pos hgt] at h
  split at h
  · exact absurd h (by simp)
  · split at h
    · exact absurd h (by simp)
    · split at h
      · exact absurd h (by simp)
      · rw [Nat.max_comm] at h
        exact (Option.some_inj.mp h).symm

/-- C3: on parent gas used 20e6 of limit 30e6 at base fee 1e9, the next base
fee is exactly 1_041_666_666; and in general, whenever the parent gas used
exceeds the target `parent_gas_limit / 2` and the calculator returns, the
result is `parent_base_fee + max(1, parent_base_fee * delta / target / 8)`
with truncating division, multiply before divide. -/
theorem calculate_base_fee_scenario_and_increase_formula :
    calculate_base_fee 20000000 30000000 1000000000 = some 1041666666 ∧
    ∀ parent_gas_used parent_gas_limit parent_base_fee r : Nat,
      parent_gas_limit / 2 < parent_gas_used →
      calculate_base_fee parent_gas_used parent_gas_limit parent_base_fee =
        some r →
      r = parent_base_fee +
        max 1 (parent_base_fee * (parent_gas_used - parent_gas_limit / 2) /
          (parent_gas_limit / 2) / 8) := by
  refine ⟨rfl, ?_⟩
  intro used limit fee r hgt h
  exact calculate_base_fee_gt_target used limit fee r hgt h

/-- Witness for C3: instantiating the general congestion formula on the
end-to-end scenario A input reproduces the concrete value. -/
theorem calculate_base_fee_scenario_and_increase_formula_witness :
    (30000000 : Nat) / 2 < 20000000 ∧
    (1041666666 : Nat) = 1000000000 +
      max 1 (1000000000 * (20000000 - 30000000 / 2) / (30000000 / 2) / 8) :=
  ⟨by norm_num,
    calculate_base_fee_scenario_and_increase_formula.2 20000000 30000000
      1000000000 1041666666 (by norm_num)
      calculate_base_fee_scenario_and_increase_formula.1⟩

/-- Counterexample to C6: with parent gas used 14_999_999 (strictly below the
target 15_000_000) and parent base fee 7, the computed decrease
`7 * 1 / 15000000 / 8` truncates to zero, so the calculator returns the parent
base fee unchanged — not a strictly smaller value. -/
theorem calculate_base_fee_no_strict_decrease :
    (14999999 : Nat) < 30000000 / 2 ∧
    calculate_base_fee 14999999 30000000 7 = some 7 :=
  ⟨by norm_num, rfl⟩

/-- C6 (amended): whenever the calculator returns a value, gas used above the
target gives a strictly larger base fee; gas used below the target gives a
smaller-or-equal base fee (strictness fails exactly when the truncated
decrease is zero); and the result is never negative (all values are `Nat`). -/
theorem calculate_base_fee_monotonicity (used limit fee r : Nat)
    (h : calculate_base_fee used limit fee = some r) :
    (limit / 2 < used → fee < r) ∧ (used < limit / 2 → r ≤ fee) ∧ 0 ≤ r := by
  refine ⟨?_, ?_, Nat.zero_le r⟩
  · intro hgt
    have := calculate_base_fee_gt_target used limit fee r hgt h
    omega
  · intro hlt
    unfold calculate_base_fee at h
    simp only [ELASTICITY_MULTIPLIER, U256_LIMIT,
      BASE_FEE_MAX_CHANGE_DENOMINATOR] at h
    rw [if_neg (by omega), if_neg (by omega)] at h
    split at h
    · exact absurd h (by simp)
    · exact (Option.some_inj.mp h) ▸ Nat.sub_le _ _

/-- Witness for C6: the amended monotonicity theorem instantiated on the
scenario A input, whose congestion result 1_041_666_666 strictly exceeds the
parent base fee 1e9. -/
theorem calculate_base_fee_monotonicity_witness :
    (1000000000 : Nat) < 1041666666 :=
  (calculate_base_fee_monotonicity 20000000 30000000 1000000000
    1041666666 rfl).1 (by norm_num)

/-- Helper: a fee below `2 ^ 192` times a gas delta within the `u64` range
stays below the `U256` overflow bound. -/
theorem mul_bound_u256 (fee d : Nat) (hfee : fee < 2 ^ 192)
    (hd : d ≤ 2 ^ 64) : fee * d < 2 ^ 256 := by
  calc fee * d ≤ fee * 2 ^ 64 := Nat.mul_le_mul (Nat.le_refl fee) hd
    _ < 2 ^ 192 * 2 ^ 64 := mul_lt_mul_of_pos_right hfee (by norm_num)
    _ = 2 ^ 256 := by norm_num

/-- Counterexample to C9: the claimed precondition is not sufficient for
totality.  With `parent_gas_limit = 30e6 ≥ 2` but
`parent_base_fee = 2 ^ 255`, the congestion branch's `U256` multiplication
`parent_base_fee * delta` overflows `2 ^ 256`, so the Rust code panics (the
model returns `none`) even though the claimed precondition holds. -/
theorem calculate_base_fee_overflow_counterexample :
    (2 : Nat) ≤ 30000000 ∧
    calculate_base_fee 30000000 30000000 (2 ^ 255) = none :=
  ⟨by norm_num, rfl⟩

/-- C9 (amended): `calculate_base_fee` is not total.  With
`parent_gas_limit ≤ 1` (so `gas_target = 0`) and `parent_gas_used > 0` it
panics — by `U256` division by zero unless the multiplication already
overflowed.  The claimed precondition `parent_gas_limit ≥ 2 or
parent_gas_used = 0` is necessary but not sufficient: totality additionally
needs the `U256` products not to overflow, for which
`parent_base_fee < 2 ^ 192` suffices on `u64`-ranged gas values. -/
theorem calculate_base_fee_totality_characterization :
    (∀ used limit fee : Nat, limit ≤ 1 → 0 < used →
      calculate_base_fee used limit fee = none) ∧
    (∀ used limit fee : Nat, used < 2 ^ 64 → limit < 2 ^ 64 →
      fee < 2 ^ 192 → (2 ≤ limit ∨ used = 0) →
      (calculate_base_fee used limit fee).isSome = true) := by
  constructor
  · intro used limit fee hlim hused
    unfold calculate_base_fee
    simp only [ELASTICITY_MULTIPLIER, U256_LIMIT,
      BASE_FEE_MAX_CHANGE_DENOMINATOR]
    have h2 : limit / 2 = 0 := by omega
    rw [h2, if_neg (by omega), if_pos (by omega)]
    split
    · rfl
    · rw [if_pos rfl]
  · intro used limit fee hused hlim hfee hpre
    unfold calculate_base_fee
    simp only [ELASTICITY_MULTIPLIER, U256_LIMIT,
      BASE_FEE_MAX_CHANGE_DENOMINATOR]
    rcases Nat.lt_trichotomy used (limit / 2) with hlt | heq | hgt
    · have hprod : fee * (limit / 2 - used) < 2 ^ 256 :=
        mul_bound_u256 fee _ hfee (by omega)
      rw [if_neg (by omega), if_neg (by omega), if_neg (by omega)]
      rfl
    · rw [if_pos heq]
      rfl
    · have hl2 : 2 ≤ limit := by
        rcases hpre with h | h
        · exact h
        · omega
      have hprod : fee * (used - limit / 2) < 2 ^ 256 :=
        mul_bound_u256 fee _ hfee (by omega)
      have hdiv : fee * (used - limit / 2) / (limit / 2) / 8 < 2 ^ 253 := by
        have h1 : fee * (used - limit / 2) / (limit / 2) ≤
            fee * (used - limit / 2) := Nat.div_le_self _ _
        omega
      rw [if_neg (by omega), if_pos hgt, if_neg (by omega),
        if_neg (by omega), if_neg (by omega)]
      rfl

/-- Witness for C9: the panic at `parent_gas_limit = 1` with positive gas
used, and a returning run on the scenario A input, both by instantiating the
characterization. -/
theorem calculate_base_fee_totality_characterization_witness :
    calculate_base_fee 1 1 77 = none ∧
    (calculate_base_fee 20000000 30000000 1000000000).isSome = true :=
  ⟨calculate_base_fee_totality_characterization.1 1 1 77 (by norm_num)
      (by norm_num),
    calculate_base_fee_totality_characterization.2 20000000 30000000
      1000000000 (by norm_num) (by norm_num) (by norm_num)
      (Or.inl (by norm_num))⟩

/-- Counterexample to C5: at `parent_gas_limit = 0` (desired limit 0) the
result is the floor 5000, which is 5000 away from the parent value — far more
than `parent_gas_limit / 1024 = 0`. -/
theorem calculate_gas_limit_floor_counterexample :
    calculate_gas_limit 0 0 (some 0) false false = 5000 ∧
    (0 : Nat) / 1024 < 5000 - 0 :=
  ⟨rfl, by norm_num⟩

/-- C5 (amended): on `u64`-representable parents the result never exceeds
`max(parent + parent/1024, 5000)`, never goes below
`parent - parent/1024` except by being clamped to exactly the floor 5000, and
is always at least 5000; the claimed two-sided `parent/1024` bound fails
exactly when the floor clamps. -/
theorem calculate_gas_limit_bounds (parent_gas_used parent_gas_limit : Nat)
    (desired_limit : Option Nat) (usage_above_ninety usage_below_half : Bool)
    (hrange : parent_gas_limit + parent_gas_limit / 1024 < 2 ^ 64) :
    5000 ≤ calculate_gas_limit parent_gas_used parent_gas_limit desired_limit
        usage_above_ninety usage_below_half ∧
    calculate_gas_limit parent_gas_used parent_gas_limit desired_limit
        usage_above_ninety usage_below_half ≤
      max (parent_gas_limit + parent_gas_limit / 1024) 5000 ∧
    (parent_gas_limit - parent_gas_limit / 1024 ≤
        calculate_gas_limit parent_gas_used parent_gas_limit desired_limit
          usage_above_ninety usage_below_half ∨
      calculate_gas_limit parent_gas_used parent_gas_limit desired_limit
        usage_above_ninety usage_below_half = 5000) := by
  unfold calculate_gas_limit
  rcases desired_limit with _ | d <;>
    simp only [GAS_LIMIT_BOUND_DIVISOR, MIN_GAS_LIMIT] <;>
    split_ifs <;> omega

/-- Witness for C5's amended bounds, at the high-load test input (93% usage,
no desired limit). -/
theorem calculate_gas_limit_bounds_witness :
    5000 ≤ calculate_gas_limit 28000000 30000000 none true false ∧
    calculate_gas_limit 28000000 30000000 none true false ≤
      max (30000000 + 30000000 / 1024) 5000 ∧
    (30000000 - 30000000 / 1024 ≤
        calculate_gas_limit 28000000 30000000 none true false ∨
      calculate_gas_limit 28000000 30000000 none true false = 5000) :=
  calculate_gas_limit_bounds 28000000 30000000 none true false (by norm_num)

/-- Helper: `sumGas` of the empty list. -/
theorem sumGas_nil : sumGas [] = 0 := rfl

/-- Helper: `sumGas` of a cons. -/
theorem sumGas_cons (tx : DynamicFeeTx) (l : List DynamicFeeTx) :
    sumGas (tx :: l) = tx.gas_limit + sumGas l := rfl

/-- Helper: membership through `stable_insert`. -/
theorem mem_stable_insert (le : DynamicFeeTx → DynamicFeeTx → Bool)
    (x y : DynamicFeeTx) (l : List DynamicFeeTx) :
    y ∈ stable_insert le x l ↔ y = x ∨ y ∈ l := by
  induction l with
  | nil => simp [stable_insert]
  | cons z l ih =>
    simp only [stable_insert]
    split
    · simp only [List.mem_cons]
    · simp only [List.mem_cons, ih]
      tauto

/-- Helper: membership through `sort_by`. -/
theorem mem_sort_by (le : DynamicFeeTx → DynamicFeeTx → Bool)
    (y : DynamicFeeTx) (l : List DynamicFeeTx) :
    y ∈ sort_by le l ↔ y ∈ l := by
  induction l with
  | nil => simp [sort_by]
  | cons x l ih =>
    simp only [sort_by, mem_stable_insert, List.mem_cons, ih]

/-- Helper: `stable_insert` preserves sortedness for a total transitive
comparator. -/
theorem pairwise_stable_insert (le : DynamicFeeTx → DynamicFeeTx → Bool)
    (htot : ∀ a b, le a b = true ∨ le b a = true)
    (htrans : ∀ a b c, le a b = true → le b c = true → le a c = true)
    (x : DynamicFeeTx) (l : List DynamicFeeTx)
    (hl : l.Pairwise (fun a b => le a b = true)) :
    (stable_insert le x l).Pairwise (fun a b => le a b = true) := by
  induction l with
  | nil => simp [stable_insert]
  | cons z l ih =>
    rcases List.pairwise_cons.mp hl with ⟨hz, hl2⟩
    simp only [stable_insert]
    split
    · rename_i hxz
      refine List.pairwise_cons.mpr ⟨?_, hl⟩
      intro b hb
      rcases List.mem_cons.mp hb with rfl | hbl
      · exact hxz
      · exact htrans x z b hxz (hz b hbl)
    · rename_i hxz
      refine List.pairwise_cons.mpr ⟨?_, ih hl2⟩
      intro b hb
      rcases (mem_stable_insert le x b l).mp hb with heq | hbl
      · rw [heq]
        rcases htot x z with h | h
        · exact absurd h hxz
        · exact h
      · exact hz b hbl

/-- Helper: `sort_by` sorts, for a total transitive comparator. -/
theorem sorted_sort_by (le : DynamicFeeTx → DynamicFeeTx → Bool)
    (htot : ∀ a b, le a b = true ∨ le b a = true)
    (htrans : ∀ a b c, le a b = true → le b c = true → le a c = true)
    (l : List DynamicFeeTx) :
    (sort_by le l).Pairwise (fun a b => le a b = true) := by
  induction l with
  | nil => simp [sort_by]
  | cons x l ih => exact pairwise_stable_insert le htot htrans x _ ih

/-- Helper: the greedy packing loop returns a subsequence of its input. -/
theorem greedy_pack_sublist (gas_limit : Nat) (l : List DynamicFeeTx) :
    ∀ total_gas, List.Sublist (greedy_pack gas_limit l total_gas) l := by
  induction l with
  | nil =>
    intro t
    simp [greedy_pack]
  | cons tx rest ih =>
    intro t
    simp only [greedy_pack]
    split
    · split
      · exact (List.nil_sublist rest).cons₂ tx
      · exact (ih _).cons₂ tx
    · split
      · exact List.nil_sublist _
      · exact (ih _).cons tx

/-- Helper: the greedy packing loop never exceeds the remaining budget. -/
theorem greedy_pack_gas (gas_limit : Nat) (l : List DynamicFeeTx) :
    ∀ total_gas, total_gas ≤ gas_limit →
      total_gas + sumGas (greedy_pack gas_limit l total_gas) ≤ gas_limit := by
  induction l with
  | nil =>
    intro t ht
    simpa [greedy_pack, sumGas_nil]
  | cons tx rest ih =>
    intro t ht
    simp only [greedy_pack]
    split
    · rename_i hfit
      split
      · simp only [sumGas_cons, sumGas_nil]
        omega
      · have := ih (t + tx.gas_limit) hfit
        simp only [sumGas_cons]
        omega
    · split
      · simpa [sumGas_nil]
      · exact ih t ht

/-- C4: the selector's three postconditions hold for every candidate list, gas
limit and base fee: the declared gas of the selection stays within
`gas_limit`, every selected transaction can pay `base_fee`, and the selection
is ordered by non-increasing effective priority fee. -/
theorem select_transactions_postconditions (candidates : List DynamicFeeTx)
    (gas_limit base_fee : Nat) :
    sumGas (select_transactions candidates gas_limit base_fee) ≤ gas_limit ∧
    (∀ tx ∈ select_transactions candidates gas_limit base_fee,
      base_fee ≤ tx.max_fee_per_gas) ∧
    (select_transactions candidates gas_limit base_fee).Pairwise
      (fun a b =>
        effective_priority_fee b base_fee ≤ effective_priority_fee a base_fee) := by
  have htot : ∀ a b, select_le base_fee a b = true ∨
      select_le base_fee b a = true := by
    intro a b
    simp only [select_le, decide_eq_true_eq]
    exact (Nat.le_total _ _).symm
  have htrans : ∀ a b c, select_le base_fee a b = true →
      select_le base_fee b c = true → select_le base_fee a c = true := by
    intro a b c hab hbc
    simp only [select_le, decide_eq_true_eq] at hab hbc ⊢
    exact le_trans hbc hab
  refine ⟨?_, ?_, ?_⟩
  · have := greedy_pack_gas gas_limit
      (sort_by (select_le base_fee)
        (candidates.filter (fun tx => decide (base_fee ≤ tx.max_fee_per_gas))))
      0 (Nat.zero_le _)
    simpa [select_transactions] using this
  · intro tx htx
    have hmem : tx ∈ sort_by (select_le base_fee)
        (candidates.filter (fun tx => decide (base_fee ≤ tx.max_fee_per_gas))) :=
      (greedy_pack_sublist gas_limit _ 0).subset htx
    have hmem2 := (mem_sort_by _ _ _).mp hmem
    have := List.of_mem_filter hmem2
    simpa using this
  · have hsorted := sorted_sort_by (select_le base_fee) htot htrans
      (candidates.filter (fun tx => decide (base_fee ≤ tx.max_fee_per_gas)))
    have hpw := hsorted.sublist (greedy_pack_sublist gas_limit _ 0)
    exact hpw.imp (fun h => by simpa [select_le, decide_eq_true_eq] using h)

/-- Witness for C4: the fee-floor postcondition instantiated on a singleton
candidate list that the selector keeps in full. -/
theorem select_transactions_postconditions_witness :
    (1 : Nat) ≤ tx50.max_fee_per_gas :=
  (select_transactions_postconditions [tx50] 30000000 1).2.1 tx50 (by decide)

/-- Helper: looking a key up after erasing it finds nothing. -/
theorem lookupA_eraseA {α β : Type} [DecidableEq α] (l : List (α × β))
    (k : α) : lookupA (eraseA l k) k = none := by
  induction l with
  | nil => rfl
  | cons p rest ih =>
    obtain ⟨a, b⟩ := p
    by_cases hak : a = k
    · simpa [eraseA, List.filter_cons, hak] using ih
    · simp only [eraseA, List.filter_cons] at ih ⊢
      rw [if_pos (by simp [hak])]
      simp only [lookupA]
      rw [if_neg hak]
      exact ih

/-- C8: `remove` never fails, and running it twice on the same hash is the
same computation as running it once — the second call finds nothing in the
`transactions` table and leaves the state untouched. -/
theorem remove_idempotent (s : TxPoolState) (h : TxHash) :
    (removeTx s h).isOk = true ∧
    (removeTx s h).bind (fun s1 => removeTx s1 h) = removeTx s h := by
  constructor
  · unfold removeTx
    split <;> rfl
  · cases hl : lookupA s.transactions h with
    | none =>
      have e1 : removeTx s h = Except.ok s := by
        unfold removeTx
        rw [hl]
      rw [e1]
      exact e1
    | some p =>
      obtain ⟨tx, sender⟩ := p
      have e1 : removeTx s h = Except.ok
          { transactions := eraseA s.transactions h,
            pending := removeSlot s.pending sender tx.nonce,
            queued := removeSlot s.queued sender tx.nonce } := by
        unfold removeTx
        rw [hl]
      rw [e1]
      show removeTx _ h = _
      unfold removeTx
      rw [lookupA_eraseA]

/-- C7: every successfully assembled block carries the fixed PoS header
fields — difficulty 0, nonce 0, the canonical empty-ommers hash — has
`number = parent_number + 1`, and passes the environment's withdrawal list
through unchanged. -/
theorem build_block_pos_header_fields (env : BuildEnvironment)
    (candidates : List DynamicFeeTx) (desired_gas_limit : Option Nat)
    (usage_above_ninety usage_below_half : Bool) (b : Block)
    (hb : build_block env candidates desired_gas_limit usage_above_ninety
      usage_below_half = some (Except.ok b)) :
    b.header.difficulty = 0 ∧ b.header.nonce = 0 ∧
    b.header.ommers_hash = empty_ommers_hash ∧
    b.header.number = env.parent_number + 1 ∧
    b.withdrawals = env.withdrawals := by
  unfold build_block at hb
  cases hc : calculate_base_fee env.parent_gas_used env.parent_gas_limit
      env.parent_base_fee with
  | none => simp [hc] at hb
  | some base_fee =>
    simp only [hc] at hb
    cases hv : validate_gas_limit env.parent_gas_limit
        (calculate_gas_limit env.parent_gas_used env.parent_gas_limit
          desired_gas_limit usage_above_ninety usage_below_half) with
    | error e => simp [hv] at hb
    | ok u =>
      simp only [hv] at hb
      simp only [Option.some_inj, Except.ok.injEq] at hb
      subst hb
      exact ⟨rfl, rfl, rfl, rfl, rfl⟩

/-- Witness for C7: the block assembled in the concrete environment `envEx`
satisfies all five properties. -/
theorem build_block_pos_header_fields_witness :
    build_block envEx [] (some 30000000) false false =
      some (Except.ok blockEx) ∧
    (blockEx.header.difficulty = 0 ∧ blockEx.header.nonce = 0 ∧
      blockEx.header.ommers_hash = empty_ommers_hash ∧
      blockEx.header.number = envEx.parent_number + 1 ∧
      blockEx.withdrawals = envEx.withdrawals) :=
  ⟨rfl,
    build_block_pos_header_fields envEx [] (some 30000000) false false
      blockEx rfl⟩

/-- Failing input for C1: with the default configuration
(`price_bump_percent = 110`), a pool holding `tx50` (sender 1, nonce 0,
`max_fee_per_gas = 50e9`) accepts the resubmission `tx54` (same sender, same
nonce, `max_fee_per_gas = 54e9`) even though 54e9 is below the required
55e9 — the replacement check keys on the transaction hash, which differs, so
no price bump is demanded.  The entry count grows to 2 instead of staying
at 1: the old entry is not swapped out. -/
theorem add_same_nonce_underpriced_accepted :
    (addTx defaultConfig poolWith50 tx54 1).isOk = true ∧
    poolWith50And54.transactions.length = 2 ∧
    poolWith50.transactions.length = 1 := by
  refine ⟨rfl, rfl, rfl⟩

/-- Failing input for C2: after admitting `tx50` and then `tx54` at the same
sender and nonce, the overwritten nonce slot points at `tx54` only, yet
`tx50`'s entry is still in the authoritative `transactions` table — an entry
pointed to by zero sender-queue slots. -/
theorem orphaned_entry_after_same_nonce_add :
    (lookupA poolWith50And54.transactions (txHash tx50)).isSome = true ∧
    pointerCount poolWith50And54 (txHash tx50) = 0 := by
  refine ⟨rfl, rfl⟩

/-- C10: whenever `add` rejects with `ReplacementUnderpriced`, the `current`
field carries the pool entry's `max_fee_per_gas` and the `required` field
carries the incoming transaction's own `max_fee_per_gas` — not the computed
minimum acceptable price. -/
theorem replacement_underpriced_fields (cfg : TxPoolConfig) (s : TxPoolState)
    (tx : DynamicFeeTx) (sender : Address) (c r : Nat) (ex : DynamicFeeTx)
    (a : Address)
    (hlook : lookupA s.transactions (txHash tx) = some (ex, a))
    (herr : addTx cfg s tx sender =
      Except.error (TxPoolError.ReplacementUnderpriced c r)) :
    c = ex.max_fee_per_gas ∧ r = tx.max_fee_per_gas := by
  unfold addTx at herr
  simp only [hlook] at herr
  by_cases hbump : needs_price_bump cfg ex tx
  · rw [if_pos hbump] at herr
    split at herr
    · rename_i e heq
      exact absurd heq (by simp)
    · split at herr
      · exact absurd herr (by simp)
      · exact absurd herr (by simp)
  · rw [if_neg hbump] at herr
    simp only [Except.error.injEq,
      TxPoolError.ReplacementUnderpriced.injEq] at herr
    exact ⟨herr.1.symm, herr.2.symm⟩

/-- Witness for C10: resubmitting `tx50` itself (the only way the dead-coded
price check can fire, C1) yields `ReplacementUnderpriced` carrying 50e9 in
both fields; the carried `required` value differs from the computed minimum
`50e9 * 110 / 100 = 55e9`. -/
theorem replacement_underpriced_fields_witness :
    ((50000000000 : Nat) = tx50.max_fee_per_gas ∧
      (50000000000 : Nat) = tx50.max_fee_per_gas) ∧
    (50000000000 : Nat) ≠ 50000000000 * 110 / 100 :=
  ⟨replacement_underpriced_fields defaultConfig poolWith50 tx50 1
      50000000000 50000000000 tx50 1 rfl rfl,
    by norm_num⟩

end RustEth
